import Mathlib

/-!
Verification of the natural-language specification of nano-labs/local_memory
(src/local_memory.py) against a shallow embedding of its code.

The program stores a JSON-serialized key-value mapping (the data region) and a
JSON-serialized key-to-expiration-timestamp mapping (the expiration region)
inside a fixed-size memory-mapped file, followed by a 5-digit client counter.

Embedding choices, traced from the source:
* The serialization codec (json.dumps / json.loads) is declared out of scope by
  the spec (section 1), so the cache-level operations are modelled directly on
  the two decoded mappings: a Python dict is an insertion-ordered association
  list with unique keys (`Dict`, `EDict` below), and a region write replaces
  the decoded content of that region.  Byte-level behaviour of region writes
  (region blanking, capacity overflow) is modelled separately and faithfully
  on a byte buffer (`MMap` below) for the capacity claims.
* Python truthiness matters in three places of the source and is modelled
  exactly: `if expiration and now_seconds() >= expiration` (Cache.get_dict,
  line 275), `if not expiration and key in whole_expiration_data`
  (Cache.set_expiration, line 303) and `if self.default_expire`
  (Cache.__setitem__, line 344).  An integer is truthy iff nonzero; None is
  falsy.
* Python exceptions are modelled by an error code paired with the state the
  shared mapping holds at the moment the exception propagates (writes that
  happened before the raise persist, as they do in shared memory).
* `now_seconds()` is passed as an explicit integer parameter `now`.
-/

/-- Error kinds raised by the code paths modelled here.
`keyError` is Python KeyError (dict.pop of a missing key),
`typeError` is Python TypeError (`now_seconds() + None` in set_expiration),
`attributeError` is Python AttributeError (missing `_flush_data` on the base
class), `valueError` is the ValueError raised by mmap.write when the payload
does not fit in the mapping, and `fileNotFoundError` is the OSError raised by
os.remove when the backing file is already gone. -/
inductive PyErr where
  | keyError
  | typeError
  | attributeError
  | valueError
  | fileNotFoundError
deriving DecidableEq, Repr

/-- JSON values stored in the data mapping (the flat fragment exercised by the
claims; nesting is irrelevant to every claim). -/
inductive JVal where
  | jnull
  | jbool (b : Bool)
  | jint (n : Int)
  | jstr (s : String)
deriving DecidableEq, Repr

/-- A decoded Python dict with string keys: an insertion-ordered association
list.  Operations below reproduce Python dict semantics (update in place,
append new keys at the end, iteration over a snapshot of the keys). -/
abbrev Dict := List (String × JVal)

/-- The decoded expiration mapping: key to absolute expiration timestamp in
seconds (json numbers; the code only ever stores `now_seconds() + ttl`). -/
abbrev EDict := List (String × Int)

/-- Python `d.get(k)` / `d[k]` lookup on an association list. -/
def dlookup {α : Type} : List (String × α) → String → Option α
  | [], _ => none
  | p :: rest, k => if p.1 = k then some p.2 else dlookup rest k

/-- Python `d[k] = v`: replace the existing entry in place, or append. -/
def dinsert {α : Type} : List (String × α) → String → α → List (String × α)
  | [], k, v => [(k, v)]
  | p :: rest, k, v => if p.1 = k then (k, v) :: rest else p :: dinsert rest k v

/-- Python `d.pop(k)` (the removal part): drop the entry for `k`. -/
def derase {α : Type} : List (String × α) → String → List (String × α)
  | [], _ => []
  | p :: rest, k => if p.1 = k then derase rest k else p :: derase rest k

/-- Python `d.keys()`. -/
def dkeys {α : Type} (l : List (String × α)) : List String :=
  l.map Prod.fst

/-- The decoded shared state of a Cache mapping: the data region, the
expiration region and the client counter region. -/
structure CacheSt where
  data : Dict
  expir : EDict
  clients : Int
deriving DecidableEq, Repr

/-- Python truthiness of an optional integer (None and 0 are falsy). -/
def truthyOpt : Option Int → Bool
  | none => false
  | some t => decide (t ≠ 0)

/-- The eviction test of Cache.get_dict (line 274-275):
`expiration = expiration_data.get(key)` followed by
`if expiration and now_seconds() >= expiration`.  A missing entry and the
timestamp 0 are falsy, hence never evict. -/
def expTestB (now : Int) (e : EDict) (k : String) : Bool :=
  match dlookup e k with
  | none => false
  | some x => decide (x ≠ 0) && decide (x ≤ now)

/-- One iteration of the eviction loop of Cache.get_dict (lines 273-278):
on the accumulated (data, expiration_data, updated) triple, process one key of
the original key snapshot. -/
def evictStep (now : Int) (acc : Dict × EDict × Bool) (k : String) : Dict × EDict × Bool :=
  if expTestB now acc.2.1 k then (derase acc.1 k, derase acc.2.1 k, true) else acc

/-- The whole eviction loop of Cache.get_dict: fold over the snapshot
`data.keys()` taken before any mutation. -/
def evictAll (now : Int) (d : Dict) (e : EDict) : Dict × EDict × Bool :=
  (dkeys d).foldl (evictStep now) (d, e, false)

/-- Cache.get_dict (lines 264-282): load both mappings, evict, and if any key
was removed write both regions back; return the post-eviction data mapping and
the resulting shared state. -/
def cache_get_dict (now : Int) (s : CacheSt) : Dict × CacheSt :=
  let r := evictAll now s.data s.expir
  (r.1, if r.2.2 then { s with data := r.1, expir := r.2.1 } else s)

/-- SharedMemoryDict.get on a Cache (lines 110-112): `self.get_dict().get(key,
default)`. -/
def cache_get (k : String) (default : JVal) (now : Int) (s : CacheSt) : JVal × CacheSt :=
  let p := cache_get_dict now s
  ((dlookup p.1 k).getD default, p.2)

/-- SharedMemoryDict.keys on a Cache (lines 114-116). -/
def cache_keys (now : Int) (s : CacheSt) : List String × CacheSt :=
  let p := cache_get_dict now s
  (dkeys p.1, p.2)

/-- Cache.get_expiration (lines 296-298): `self.get_expiration_dict().get(key,
None)`; no eviction happens on this path. -/
def cache_get_expiration (k : String) (s : CacheSt) : Option Int :=
  dlookup s.expir k

/-- Cache.set_expiration (lines 300-307).  With a falsy `expiration` (None or
0) and the key present, the entry is popped; otherwise the code runs
`whole_expiration_data[key] = now_seconds() + expiration`, which raises
TypeError when `expiration` is None (int + None) before any write happens. -/
def set_expiration (k : String) (expiration : Option Int) (now : Int) (s : CacheSt) :
    Except PyErr Unit × CacheSt :=
  if truthyOpt expiration = false ∧ (dlookup s.expir k).isSome = true then
    (.ok (), { s with expir := derase s.expir k })
  else
    match expiration with
    | none => (.error .typeError, s)
    | some t => (.ok (), { s with expir := dinsert s.expir k (now + t) })

/-- SharedMemoryDict.__setitem__ as inherited by Cache (lines 171-183): load
the (evicted) data mapping, set the key, write the data region back.  The
write path (_flush_data + json.dumps + mm.write) replaces the decoded region
content; its byte-level behaviour is modelled by `writeBytes` below. -/
def setitem_base (k : String) (v : JVal) (now : Int) (s : CacheSt) : CacheSt :=
  let p := cache_get_dict now s
  { p.2 with data := dinsert p.1 k v }

/-- Cache.__setitem__ (lines 333-345): the inherited __setitem__, then, only
if the cache-level default TTL `de` is truthy, `set_expiration(key,
default_expire)`. -/
def cache_set (de : Option Int) (k : String) (v : JVal) (now : Int) (s : CacheSt) :
    Except PyErr Unit × CacheSt :=
  let s1 := setitem_base k v now s
  if truthyOpt de then set_expiration k de now s1 else (.ok (), s1)

/-- Cache.delete (lines 289-294): load the (evicted) data mapping,
`whole_data.pop(key)` (KeyError when absent), write the data region back, then
`set_expiration(key, None)`.  Note the data write has already happened when
set_expiration raises TypeError for a key with no expiration entry. -/
def cache_delete (k : String) (now : Int) (s : CacheSt) : Except PyErr Unit × CacheSt :=
  let p := cache_get_dict now s
  if (dlookup p.1 k).isSome = true then
    set_expiration k none now { p.2 with data := derase p.1 k }
  else (.error .keyError, p.2)

/-- SharedMemoryDict.pop on a Cache (lines 118-122): `value =
self.get("key")` (the literal string "key", not the argument), then
`self.remove(key)` which is Cache.delete, then return the value.  An exception
from the removal propagates and nothing is returned. -/
def cache_pop (k : String) (now : Int) (s : CacheSt) : Except PyErr JVal × CacheSt :=
  let p := cache_get "key" .jnull now s
  match cache_delete k now p.2 with
  | (.ok _, s2) => (.ok p.1, s2)
  | (.error e, s2) => (.error e, s2)

/-- Modelled from the spec: src has no `set(key, value, ttl_seconds)` with a
per-call TTL (Cache.__setitem__ takes no TTL argument).  Spec section 4.2 says
a set with a TTL configured performs the data write and then `sets key -> now
+ ttl_seconds` in the expiration mapping and writes the expiration region.
The data write is the code path `setitem_base`; the expiration update follows
the words of the spec. -/
def cache_set_ttl (k : String) (v : JVal) (ttl : Int) (now : Int) (s : CacheSt) : CacheSt :=
  let s1 := setitem_base k v now s
  { s1 with expir := dinsert s1.expir k (now + ttl) }

/-- The decoded shared state of a base (non-TTL) SharedMemoryDict mapping:
one data region and the client counter. -/
structure SMDSt where
  data : Dict
  clients : Int
deriving DecidableEq, Repr

/-- The only synthetic attribute served by SharedMemoryDict.__getattr__
(lines 88-94); every other missing attribute falls through to
`super(SharedMemoryDict, self).__getattr__(attr)`, which raises
AttributeError (object has no __getattr__). -/
def smd_dynamic_attrs : List String := ["connected_clients"]

/-- SharedMemoryDict.write (lines 134-138): `self._flush_data()` first.  The
base class defines no `_flush_data` method (only Cache does, lines 315-319),
so the attribute lookup reaches __getattr__ and raises AttributeError before
json.dumps or mm.write run; the data region is untouched. -/
def smd_write (dict_data : Dict) (s : SMDSt) : Except PyErr Unit × SMDSt :=
  if "_flush_data" ∈ smd_dynamic_attrs then (.ok (), { s with data := dict_data })
  else (.error .attributeError, s)

/-- SharedMemoryDict.__setitem__ on a base handle (lines 171-183): load, set
the key locally, then `self.write(whole_data)` which raises AttributeError. -/
def smd_setitem (k : String) (v : JVal) (s : SMDSt) : Except PyErr Unit × SMDSt :=
  smd_write (dinsert s.data k v) s

/-- SharedMemoryDict.delete on a base handle (lines 124-128):
`whole_data.pop(key)` raises KeyError when the key is absent; otherwise
`self.write(whole_data)` raises AttributeError.  Either way the region is
untouched. -/
def smd_delete (k : String) (s : SMDSt) : Except PyErr Unit × SMDSt :=
  if (dlookup s.data k).isSome = true then smd_write (derase s.data k) s
  else (.error .keyError, s)

/-- The lifecycle state of one handle: the shared client counter region, the
existence of the backing file, and the per-handle mapping, file descriptor and
closed flag. -/
structure CloseSt where
  clients : Int
  fileExists : Bool
  mapped : Bool
  fdOpen : Bool
  closed : Bool
deriving DecidableEq, Repr

/-- SharedMemoryDict.close (lines 140-148).  `self.connected_clients -= 1`
writes the decremented counter to the shared region; when the decremented
value is ≤ 0 the code calls `os.remove(self.shared_file)` with no try/except,
so a missing backing file raises and `mm.close()`, `opened_file.close()` and
`self.closed = True` are all skipped. -/
def smd_close (s : CloseSt) : Except PyErr Unit × CloseSt :=
  if s.closed then (.ok (), s)
  else
    let s1 := { s with clients := s.clients - 1 }
    if s1.clients ≤ 0 then
      if s1.fileExists then
        (.ok (), { s1 with fileExists := false, mapped := false, fdOpen := false, closed := true })
      else (.error .fileNotFoundError, s1)
    else (.ok (), { s1 with mapped := false, fdOpen := false, closed := true })

/-- The raw memory mapping: the full byte buffer (data region, expiration
region, counter) and the mmap cursor position. -/
structure MMap where
  buf : List Char
  pos : Nat
deriving DecidableEq, Repr

/-- mmap.seek. -/
def MMap.seekTo (m : MMap) (p : Nat) : MMap :=
  { m with pos := p }

/-- Overwrite `s` into `buf` starting at `pos` (callers establish
`pos + s.length ≤ buf.length`). -/
def listOverwrite (buf : List Char) (pos : Nat) (s : List Char) : List Char :=
  buf.take pos ++ s ++ buf.drop (pos + s.length)

/-- Python 2 mmap.write: raises ValueError (data out of range) without writing
anything when the payload does not fit between the cursor and the end of the
mapping; otherwise overwrites in place and advances the cursor.  There is no
per-region bound: only the end of the whole mapping is checked. -/
def MMap.write (m : MMap) (s : List Char) : Except PyErr MMap :=
  if m.pos + s.length ≤ m.buf.length then
    .ok ⟨listOverwrite m.buf m.pos s, m.pos + s.length⟩
  else .error .valueError

/-- The blank placeholder written by Cache._flush_data and _flush_expiration:
an empty JSON object followed by spaces, `size` bytes in total. -/
def flushPayload (size : Nat) : List Char :=
  '\x7b' :: '\x7d' :: List.replicate (size - 2) ' '

/-- json.dumps of one flat value, Python 2 default formatting. String escaping
is omitted: every string used in this development is free of quotes and
backslashes. -/
def dumpsVal : JVal → String
  | .jnull => "null"
  | .jbool true => "true"
  | .jbool false => "false"
  | .jint n => toString n
  | .jstr s => "\x22" ++ s ++ "\x22"

/-- json.dumps of a dict, Python 2 default separators (", " and ": "). -/
def dumps (d : Dict) : String :=
  "\x7b" ++ String.intercalate ", " (d.map (fun p => "\x22" ++ p.1 ++ "\x22: " ++ dumpsVal p.2)) ++ "\x7d"

/-- Cache._flush_data (lines 315-319) followed by the mm.write of
SharedMemoryDict.write (lines 134-138) on a Cache: seek 0, blank the data
region, seek 0, write the serialized dict.  No capacity check exists anywhere
on this path; only mmap itself rejects writes running past the whole
mapping. -/
def writeBytes (size : Nat) (dict_data : Dict) (m : MMap) : Except PyErr MMap :=
  match (m.seekTo 0).write (flushPayload size) with
  | .error e => .error e
  | .ok m1 => (m1.seekTo 0).write (dumps dict_data).data

/-- The initial bytes of a freshly created Cache mapping of region capacity
`size` (Cache.flush_file, lines 234-240, then the counter increment of
__init__): blank data region, blank expiration region, counter 00001. -/
def cacheInitBuf (size : Nat) : List Char :=
  flushPayload size ++ flushPayload size ++ ['0', '0', '0', '0', '1']

/-- The bytes of the region of length `len` at offset `off`, when the write
succeeded. -/
def exceptRegion (r : Except PyErr MMap) (off len : Nat) : Option (List Char) :=
  match r with
  | .ok m => some ((m.buf.drop off).take len)
  | .error _ => none

/-- Decidable equality of results, so that concrete runs of the model can be
settled by `decide`. -/
instance {e a : Type} [DecidableEq e] [DecidableEq a] : DecidableEq (Except e a) := fun x y =>
  match x, y with
  | .ok u, .ok w =>
    if h : u = w then .isTrue (congrArg Except.ok h)
    else .isFalse (fun hh => h (by cases hh; rfl))
  | .error u, .error w =>
    if h : u = w then .isTrue (congrArg Except.error h)
    else .isFalse (fun hh => h (by cases hh; rfl))
  | .ok _, .error _ => .isFalse (fun hh => Except.noConfusion hh)
  | .error _, .ok _ => .isFalse (fun hh => Except.noConfusion hh)


theorem dlookup_dinsert_self {α : Type} (l : List (String × α)) (k : String) (v : α) :
    dlookup (dinsert l k v) k = some v := by
  induction l with
  | nil => simp [dinsert, dlookup]
  | cons p rest ih =>
    by_cases h : p.1 = k
    · simp [dinsert, h, dlookup]
    · simp [dinsert, h, dlookup, ih]

theorem dlookup_dinsert_ne {α : Type} (l : List (String × α)) (k k' : String) (v : α)
    (h : k' ≠ k) : dlookup (dinsert l k v) k' = dlookup l k' := by
  have hkk : ¬ k = k' := fun hh => h hh.symm
  induction l with
  | nil => simp [dinsert, dlookup, hkk]
  | cons p rest ih =>
    by_cases hp : p.1 = k
    · have hp' : ¬ p.1 = k' := by rw [hp]; exact hkk
      simp [dinsert, hp, dlookup, hp', hkk]
    · simp [dinsert, hp, dlookup, ih]

theorem dlookup_derase_self {α : Type} (l : List (String × α)) (k : String) :
    dlookup (derase l k) k = none := by
  induction l with
  | nil => simp [derase, dlookup]
  | cons p rest ih =>
    by_cases h : p.1 = k
    · simpa [derase, h] using ih
    · simp [derase, h, dlookup, ih]

theorem dlookup_derase_ne {α : Type} (l : List (String × α)) (k k' : String)
    (h : k' ≠ k) : dlookup (derase l k) k' = dlookup l k' := by
  have hkk : ¬ k = k' := fun hh => h hh.symm
  induction l with
  | nil => simp [derase]
  | cons p rest ih =>
    by_cases hp : p.1 = k
    · have hp' : ¬ p.1 = k' := by rw [hp]; exact hkk
      simp [derase, hp, dlookup, hp', hkk, ih]
    · simp [derase, hp, dlookup, ih]

theorem mem_dkeys_iff {α : Type} (l : List (String × α)) (k : String) :
    k ∈ dkeys l ↔ (dlookup l k).isSome = true := by
  induction l with
  | nil => simp [dkeys, dlookup]
  | cons p rest ih =>
    by_cases h : p.1 = k
    · simp [dkeys, dlookup, h]
    · simp only [dkeys, List.map_cons, List.mem_cons, dlookup, h, if_false]
      constructor
      · intro hmem
        rcases hmem with hmem | hmem
        · exact absurd hmem.symm h
        · exact ih.mp hmem
      · intro hs
        exact Or.inr (ih.mpr hs)

theorem dlookup_mem {α : Type} (l : List (String × α)) (k : String) (x : α)
    (h : dlookup l k = some x) : (k, x) ∈ l := by
  induction l with
  | nil => simp [dlookup] at h
  | cons p rest ih =>
    by_cases hp : p.1 = k
    · simp [dlookup, hp] at h
      cases p with
      | mk a b =>
        simp only at hp h
        subst hp
        subst h
        exact List.mem_cons_self _ _
    · simp only [dlookup, hp, if_false] at h
      exact List.mem_cons_of_mem _ (ih h)

theorem expTestB_none (now : Int) (e : EDict) (k : String) (h : dlookup e k = none) :
    expTestB now e k = false := by
  simp [expTestB, h]

theorem evictStep_lookup_ne (now : Int) (acc : Dict × EDict × Bool) (a k : String)
    (h : a ≠ k) :
    dlookup (evictStep now acc a).1 k = dlookup acc.1 k ∧
    dlookup (evictStep now acc a).2.1 k = dlookup acc.2.1 k := by
  have hka : k ≠ a := fun hh => h hh.symm
  unfold evictStep
  by_cases ht : expTestB now acc.2.1 a = true
  · simp only [ht, if_true]
    exact ⟨dlookup_derase_ne _ _ _ hka, dlookup_derase_ne _ _ _ hka⟩
  · simp [ht]

theorem evictGo_lookup (now : Int) (k : String) (ks : List String) :
    ∀ acc : Dict × EDict × Bool,
    dlookup (List.foldl (evictStep now) acc ks).1 k
      = (if k ∈ ks ∧ expTestB now acc.2.1 k = true then none else dlookup acc.1 k) ∧
    dlookup (List.foldl (evictStep now) acc ks).2.1 k
      = (if k ∈ ks ∧ expTestB now acc.2.1 k = true then none else dlookup acc.2.1 k) := by
  induction ks with
  | nil => intro acc; simp
  | cons a rest ih =>
    intro acc
    simp only [List.foldl_cons]
    by_cases hak : a = k
    · subst hak
      by_cases ht : expTestB now acc.2.1 a = true
      · have hstep : evictStep now acc a = (derase acc.1 a, derase acc.2.1 a, true) := by
          simp [evictStep, ht]
        have hlk : dlookup (evictStep now acc a).2.1 a = none := by
          rw [hstep]; exact dlookup_derase_self _ _
        have ht' : expTestB now (evictStep now acc a).2.1 a = false :=
          expTestB_none _ _ _ hlk
        obtain ⟨ihd, ihe⟩ := ih (evictStep now acc a)
        rw [ihd, ihe]
        simp [ht', ht, hstep, dlookup_derase_self]
      · have hstep : evictStep now acc a = acc := by
          simp [evictStep, ht]
        rw [hstep]
        obtain ⟨ihd, ihe⟩ := ih acc
        rw [ihd, ihe]
        simp [ht]
    · obtain ⟨hd1, he1⟩ := evictStep_lookup_ne now acc a k hak
      have ht' : expTestB now (evictStep now acc a).2.1 k = expTestB now acc.2.1 k := by
        simp [expTestB, he1]
      obtain ⟨ihd, ihe⟩ := ih (evictStep now acc a)
      rw [ihd, ihe, hd1, he1, ht']
      have hiff : (k ∈ rest ∧ expTestB now acc.2.1 k = true)
          ↔ (k ∈ a :: rest ∧ expTestB now acc.2.1 k = true) := by
        constructor
        · rintro ⟨hm, htt⟩
          exact ⟨List.mem_cons_of_mem _ hm, htt⟩
        · rintro ⟨hm, htt⟩
          rcases List.mem_cons.mp hm with hh | hh
          · exact absurd hh.symm hak
          · exact ⟨hh, htt⟩
      exact ⟨if_congr hiff rfl rfl, if_congr hiff rfl rfl⟩

theorem evictGo_flag (now : Int) (ks : List String) :
    ∀ acc : Dict × EDict × Bool,
    (List.foldl (evictStep now) acc ks).2.2
      = (acc.2.2 || ks.any (fun j => expTestB now acc.2.1 j)) := by
  induction ks with
  | nil => intro acc; simp
  | cons a rest ih =>
    intro acc
    simp only [List.foldl_cons, List.any_cons]
    by_cases ht : expTestB now acc.2.1 a = true
    · have hstep : evictStep now acc a = (derase acc.1 a, derase acc.2.1 a, true) := by
        simp [evictStep, ht]
      rw [ih (evictStep now acc a), hstep, ht]
      simp
    · rw [Bool.not_eq_true] at ht
      have hstep : evictStep now acc a = acc := by
        simp [evictStep, ht]
      rw [ih (evictStep now acc a), hstep, ht]
      simp

theorem evictGo_flag_false (now : Int) (ks : List String) :
    ∀ acc : Dict × EDict × Bool,
    (List.foldl (evictStep now) acc ks).2.2 = false →
    List.foldl (evictStep now) acc ks = acc := by
  induction ks with
  | nil => intro acc _; simp
  | cons a rest ih =>
    intro acc hfl
    simp only [List.foldl_cons] at hfl ⊢
    by_cases ht : expTestB now acc.2.1 a = true
    · exfalso
      have hstep : evictStep now acc a = (derase acc.1 a, derase acc.2.1 a, true) := by
        simp [evictStep, ht]
      rw [evictGo_flag now rest _, hstep] at hfl
      simp at hfl
    · have hstep : evictStep now acc a = acc := by
        simp [evictStep, ht]
      rw [hstep] at hfl ⊢
      exact ih acc hfl

theorem cache_get_dict_eq (now : Int) (s : CacheSt) :
    (cache_get_dict now s).1 = (evictAll now s.data s.expir).1 ∧
    (cache_get_dict now s).2.data = (evictAll now s.data s.expir).1 ∧
    (cache_get_dict now s).2.expir = (evictAll now s.data s.expir).2.1 ∧
    (cache_get_dict now s).2.clients = s.clients := by
  by_cases hfl : (evictAll now s.data s.expir).2.2 = true
  · simp [cache_get_dict, hfl]
  · rw [Bool.not_eq_true] at hfl
    have h : evictAll now s.data s.expir = (s.data, s.expir, false) :=
      evictGo_flag_false now (dkeys s.data) (s.data, s.expir, false) hfl
    simp [cache_get_dict, hfl, h]

theorem cache_get_dict_lookup (now : Int) (s : CacheSt) (k : String) :
    dlookup (cache_get_dict now s).1 k
      = (if ((dlookup s.data k).isSome && expTestB now s.expir k) = true
         then none else dlookup s.data k) ∧
    dlookup (cache_get_dict now s).2.expir k
      = (if ((dlookup s.data k).isSome && expTestB now s.expir k) = true
         then none else dlookup s.expir k) := by
  obtain ⟨h1, _, h3, _⟩ := cache_get_dict_eq now s
  obtain ⟨g1, g2⟩ := evictGo_lookup now k (dkeys s.data) (s.data, s.expir, false)
  rw [h1, h3]
  rw [show evictAll now s.data s.expir
      = List.foldl (evictStep now) (s.data, s.expir, false) (dkeys s.data) from rfl]
  rw [g1, g2]
  by_cases hm : (dlookup s.data k).isSome = true
  · have hmem : k ∈ dkeys s.data := (mem_dkeys_iff _ _).mpr hm
    by_cases ht : expTestB now s.expir k = true
    · simp [hmem, hm, ht]
    · rw [Bool.not_eq_true] at ht
      simp [hmem, hm, ht]
  · have hmem : ¬ k ∈ dkeys s.data := by
      rw [mem_dkeys_iff]; exact hm
    rw [Bool.not_eq_true] at hm
    simp [hmem, hm]

theorem expTestB_false_of_all (now : Int) (e : EDict)
    (h : e.all (fun q => decide (q.2 = 0) || decide (now < q.2)) = true) :
    ∀ j : String, expTestB now e j = false := by
  intro j
  unfold expTestB
  cases hx : dlookup e j with
  | none => rfl
  | some x =>
    have hmem := dlookup_mem e j x hx
    have hq := (List.all_eq_true.mp h) (j, x) hmem
    simp only [decide_eq_true_eq, Bool.or_eq_true] at hq
    rcases hq with h0 | hlt
    · simp [h0]
    · have hnle : ¬ x ≤ now := not_le.mpr hlt
      simp [hnle]

theorem cache_get_dict_stable (now : Int) (s : CacheSt)
    (h : ∀ j : String, expTestB now s.expir j = false) :
    cache_get_dict now s = (s.data, s) := by
  have hany : (dkeys s.data).any (fun j => expTestB now s.expir j) = false := by
    rw [List.any_eq_false]
    intro j hj
    simp [h j]
  have hfl : (evictAll now s.data s.expir).2.2 = false := by
    rw [show evictAll now s.data s.expir
        = List.foldl (evictStep now) (s.data, s.expir, false) (dkeys s.data) from rfl]
    rw [evictGo_flag]
    simpa using hany
  have h2 : evictAll now s.data s.expir = (s.data, s.expir, false) :=
    evictGo_flag_false now (dkeys s.data) _ hfl
  simp [cache_get_dict, hfl, h2]

theorem setitem_base_eq (k : String) (v : JVal) (now : Int) (s : CacheSt) :
    (setitem_base k v now s).data = dinsert (cache_get_dict now s).1 k v ∧
    (setitem_base k v now s).expir = (cache_get_dict now s).2.expir ∧
    (setitem_base k v now s).clients = (cache_get_dict now s).2.clients :=
  ⟨rfl, rfl, rfl⟩

theorem cache_set_none_eq (k : String) (v : JVal) (now : Int) (s : CacheSt) :
    cache_set none k v now s = (.ok (), setitem_base k v now s) := by
  simp [cache_set, truthyOpt]

theorem cache_set_some_eq (t : Int) (ht : t ≠ 0) (k : String) (v : JVal) (now : Int)
    (s : CacheSt) :
    cache_set (some t) k v now s
      = (.ok (), { setitem_base k v now s with
          expir := dinsert (setitem_base k v now s).expir k (now + t) }) := by
  simp [cache_set, truthyOpt, ht, set_expiration]

theorem set_expiration_none_present (k : String) (now : Int) (s : CacheSt)
    (h : (dlookup s.expir k).isSome = true) :
    set_expiration k none now s = (.ok (), { s with expir := derase s.expir k }) := by
  simp [set_expiration, truthyOpt, h]

theorem set_expiration_none_absent (k : String) (now : Int) (s : CacheSt)
    (h : dlookup s.expir k = none) :
    set_expiration k none now s = (.error .typeError, s) := by
  simp [set_expiration, truthyOpt, h]

theorem cache_get_value (k : String) (v default : JVal) (now : Int) (s : CacheSt)
    (hv : dlookup s.data k = some v) (ht : expTestB now s.expir k = false) :
    (cache_get k default now s).1 = v := by
  obtain ⟨g1, _⟩ := cache_get_dict_lookup now s k
  show (dlookup (cache_get_dict now s).1 k).getD default = v
  rw [g1]
  simp [hv, ht]

theorem expTest_after_evict (now : Int) (s : CacheSt) (k : String)
    (hk : ∀ x : Int, dlookup s.expir k = some x →
      x = 0 ∨ now < x ∨ (dlookup s.data k).isSome = true) :
    expTestB now (cache_get_dict now s).2.expir k = false := by
  obtain ⟨_, g2⟩ := cache_get_dict_lookup now s k
  unfold expTestB
  rw [g2]
  by_cases hc : ((dlookup s.data k).isSome && expTestB now s.expir k) = true
  · rw [if_pos hc]
  · rw [if_neg hc]
    cases hx : dlookup s.expir k with
    | none => rfl
    | some x =>
      rcases hk x hx with h0 | hlt | hs
      · simp [h0]
      · simp [not_le.mpr hlt]
      · have hfalse : expTestB now s.expir k = false := by
          rcases Bool.eq_false_or_eq_true (expTestB now s.expir k) with htr | hfa
          · exact absurd (by simp [hs, htr]) hc
          · exact hfa
        unfold expTestB at hfalse
        rw [hx] at hfalse
        exact hfalse

/-- C2: the claim says every key of D whose expiration entry satisfies
now ≥ E[k] is evicted on load.  The code guard is
`if expiration and now_seconds() >= expiration`, so an entry equal to 0 is
falsy and never evicts.  The state below is reached from a fresh cache by
`cache["a"] = 1` at time 5 followed by `set_expiration("a", -5)` at time 5
(storing 5 + (-5) = 0); at time 9 the load keeps "a" although 9 ≥ 0. -/
theorem C2_counterexample :
    cache_set none "a" (JVal.jint 1) 5 ⟨[], [], 1⟩
      = (.ok (), ⟨[("a", JVal.jint 1)], [], 1⟩) ∧
    set_expiration "a" (some (-5)) 5 ⟨[("a", JVal.jint 1)], [], 1⟩
      = (.ok (), ⟨[("a", JVal.jint 1)], [("a", 0)], 1⟩) ∧
    dlookup (⟨[("a", JVal.jint 1)], [("a", 0)], 1⟩ : CacheSt).expir "a" = some 0 ∧
    ((0 : Int) ≤ 9) ∧
    (cache_get_dict 9 ⟨[("a", JVal.jint 1)], [("a", 0)], 1⟩).1 = [("a", JVal.jint 1)] := by
  decide

/-- C2 (amended): on every load, a key k of the data mapping is evicted from
both mappings exactly when its expiration entry is nonzero and ≤ now; if so
both regions are rewritten, and the post-eviction data mapping is what the
caller observes. -/
theorem C2_lazy_eviction (now : Int) (s : CacheSt) (k : String) :
    (cache_get_dict now s).2.data = (cache_get_dict now s).1 ∧
    dlookup (cache_get_dict now s).1 k
      = (if ((dlookup s.data k).isSome && expTestB now s.expir k) = true
         then none else dlookup s.data k) ∧
    dlookup (cache_get_dict now s).2.expir k
      = (if ((dlookup s.data k).isSome && expTestB now s.expir k) = true
         then none else dlookup s.expir k) := by
  obtain ⟨h1, h2, _, _⟩ := cache_get_dict_eq now s
  obtain ⟨g1, g2⟩ := cache_get_dict_lookup now s k
  exact ⟨h2.trans h1.symm, g1, g2⟩

theorem cache_delete_present (k : String) (now : Int) (s : CacheSt)
    (hd : (dlookup (cache_get_dict now s).1 k).isSome = true) :
    cache_delete k now s
      = set_expiration k none now
          { (cache_get_dict now s).2 with data := derase (cache_get_dict now s).1 k } := by
  simp [cache_delete, hd]

/-- C5 (counterexample): the claim says `set_expiration(k, None)` succeeds
when k has no expiration entry.  On a fresh cache the expiration mapping is
empty, and the code runs `whole_expiration_data[key] = now_seconds() + None`,
a TypeError, leaving the state untouched and never returning. -/
theorem C5_counterexample :
    set_expiration "a" none 100 ⟨[], [], 1⟩ = (.error .typeError, ⟨[], [], 1⟩) := by
  decide

/-- C5 (amended): for a key k present in the post-eviction data mapping,
delete(k) removes k from the data mapping and afterwards get_expiration(k)
is absent; the call returns normally only when k had an expiration entry —
without one, the data write still happens but a TypeError is raised.
set_expiration(k, None) is not idempotent: with no entry for k it raises
TypeError and leaves the state unchanged. -/
theorem C5_delete_clears_expiration_amended (k : String) (now : Int) (s : CacheSt)
    (hd : (dlookup (cache_get_dict now s).1 k).isSome = true) :
    dlookup (cache_delete k now s).2.data k = none ∧
    ((dlookup (cache_get_dict now s).2.expir k).isSome = true →
      (cache_delete k now s).1 = .ok () ∧
      cache_get_expiration k (cache_delete k now s).2 = none) ∧
    (dlookup (cache_get_dict now s).2.expir k = none →
      (cache_delete k now s).1 = .error .typeError ∧
      cache_get_expiration k (cache_delete k now s).2 = none) ∧
    (∀ s2 : CacheSt, dlookup s2.expir k = none →
      set_expiration k none now s2 = (.error .typeError, s2)) := by
  have hdel := cache_delete_present k now s hd
  cases hx : dlookup (cache_get_dict now s).2.expir k with
  | none =>
    have habs : cache_delete k now s
        = (.error .typeError,
           { (cache_get_dict now s).2 with data := derase (cache_get_dict now s).1 k }) := by
      rw [hdel]
      exact set_expiration_none_absent _ _ _ hx
    refine ⟨?_, ?_, ?_, ?_⟩
    · rw [habs]
      exact dlookup_derase_self _ _
    · intro hcontra
      simp at hcontra
    · intro _
      rw [habs]
      exact ⟨rfl, hx⟩
    · intro s2 h2
      exact set_expiration_none_absent _ _ _ h2
  | some x =>
    have hsome : (dlookup ({ (cache_get_dict now s).2 with
        data := derase (cache_get_dict now s).1 k } : CacheSt).expir k).isSome = true := by
      show (dlookup (cache_get_dict now s).2.expir k).isSome = true
      rw [hx]
      rfl
    have hok : cache_delete k now s
        = (.ok (), { (cache_get_dict now s).2 with
            data := derase (cache_get_dict now s).1 k,
            expir := derase (cache_get_dict now s).2.expir k }) := by
      rw [hdel]
      exact set_expiration_none_present _ _ _ hsome
    refine ⟨?_, ?_, ?_, ?_⟩
    · rw [hok]
      exact dlookup_derase_self _ _
    · intro _
      rw [hok]
      exact ⟨rfl, dlookup_derase_self _ _⟩
    · intro hcontra
      simp at hcontra
    · intro s2 h2
      exact set_expiration_none_absent _ _ _ h2

theorem C5_witness :
    dlookup (cache_delete "a" 10 ⟨[("a", JVal.jint 1)], [("a", 100)], 1⟩).2.data "a" = none ∧
    (cache_delete "a" 10 ⟨[("a", JVal.jint 1)], [("a", 100)], 1⟩).1 = .ok () ∧
    cache_get_expiration "a" (cache_delete "a" 10 ⟨[("a", JVal.jint 1)], [("a", 100)], 1⟩).2
      = none :=
  have h := C5_delete_clears_expiration_amended "a" 10
    ⟨[("a", JVal.jint 1)], [("a", 100)], 1⟩ (by decide)
  ⟨h.1, (h.2.1 (by decide)).1, (h.2.1 (by decide)).2⟩

/-- C10 (counterexample): the claim says every mutating operation on a base
SharedMemoryDict raises AttributeError.  Deleting an absent key raises
KeyError instead (`whole_data.pop(key)` runs before the write reaches the
missing `_flush_data`), though the region is indeed left unmodified. -/
theorem C10_counterexample :
    smd_delete "x" ⟨[("y", JVal.jint 1)], 1⟩
      = (.error .keyError, ⟨[("y", JVal.jint 1)], 1⟩) ∧
    PyErr.keyError ≠ PyErr.attributeError := by
  decide

/-- C10 (amended): on a base SharedMemoryDict handle, write and __setitem__
always raise AttributeError (write reaches the missing `_flush_data` and
__getattr__ raises) without modifying the data region; delete also never
modifies the region, raising AttributeError when the key is present and
KeyError when it is absent.  Only the Cache subclass can mutate. -/
theorem C10_base_mutations_fail (d : Dict) (k : String) (v : JVal) (s : SMDSt) :
    smd_write d s = (.error .attributeError, s) ∧
    smd_setitem k v s = (.error .attributeError, s) ∧
    (smd_delete k s).2 = s ∧
    ((dlookup s.data k).isSome = true → smd_delete k s = (.error .attributeError, s)) ∧
    (dlookup s.data k = none → smd_delete k s = (.error .keyError, s)) := by
  have hnot : ¬ ("_flush_data" ∈ smd_dynamic_attrs) := by decide
  have hw : ∀ d2 : Dict, smd_write d2 s = (.error .attributeError, s) := by
    intro d2
    simp [smd_write, hnot]
  refine ⟨hw d, hw _, ?_, ?_, ?_⟩
  · by_cases h : (dlookup s.data k).isSome = true
    · simp [smd_delete, h, hw]
    · simp [smd_delete, h]
  · intro h
    simp [smd_delete, h, hw]
  · intro h
    simp [smd_delete, h]

theorem C10_witness :
    smd_write [] ⟨[("y", JVal.jint 1)], 1⟩
      = (.error .attributeError, ⟨[("y", JVal.jint 1)], 1⟩) ∧
    smd_setitem "a" (JVal.jint 2) ⟨[("y", JVal.jint 1)], 1⟩
      = (.error .attributeError, ⟨[("y", JVal.jint 1)], 1⟩) ∧
    smd_delete "y" ⟨[("y", JVal.jint 1)], 1⟩
      = (.error .attributeError, ⟨[("y", JVal.jint 1)], 1⟩) :=
  have h := C10_base_mutations_fail [] "a" (JVal.jint 2) ⟨[("y", JVal.jint 1)], 1⟩
  have h2 := C10_base_mutations_fail [] "y" JVal.jnull ⟨[("y", JVal.jint 1)], 1⟩
  ⟨h.1, h.2.1, h2.2.2.2.1 (by decide)⟩

/-- C6 (counterexample): the claim says the counter is decremented exactly
once per handle and a second close performs no further decrement.  When the
first close raises from the deletion step (backing file already gone), the
closed flag is never set, so a second close decrements again: from one
client, two close calls drive the counter to -1. -/
theorem C6_counterexample :
    (smd_close ⟨1, false, true, true, false⟩).2.clients = 0 ∧
    (smd_close (smd_close ⟨1, false, true, true, false⟩).2).2.clients = -1 := by
  decide

/-- C6 (amended): a close call that completes without raising marks the
handle closed and decrements the shared counter exactly once, and any further
close on that handle is a no-op (no decrement, deletion, unmapping or
descriptor close); only a close that raises from the deletion step leaves the
closed flag unset. -/
theorem C6_close_idempotent (s : CloseSt) (h0 : s.closed = false)
    (h1 : (smd_close s).1 = .ok ()) :
    (smd_close s).2.closed = true ∧
    (smd_close s).2.clients = s.clients - 1 ∧
    smd_close (smd_close s).2 = (.ok (), (smd_close s).2) := by
  by_cases hc : s.clients - 1 ≤ 0
  · by_cases hf : s.fileExists = true
    · refine ⟨?_, ?_, ?_⟩ <;> simp [smd_close, h0, hc, hf]
    · rw [Bool.not_eq_true] at hf
      exfalso
      simp [smd_close, h0, hc, hf] at h1
  · refine ⟨?_, ?_, ?_⟩ <;> simp [smd_close, h0, hc]

theorem C6_witness :
    (smd_close ⟨2, true, true, true, false⟩).2.closed = true ∧
    (smd_close ⟨2, true, true, true, false⟩).2.clients = 1 ∧
    smd_close (smd_close ⟨2, true, true, true, false⟩).2
      = (.ok (), (smd_close ⟨2, true, true, true, false⟩).2) :=
  have h := C6_close_idempotent ⟨2, true, true, true, false⟩ (by decide) (by decide)
  ⟨h.1, by rw [h.2.1]; decide, h.2.2⟩

/-- C7 (counterexample): the claim says the FileNotFoundError from the
deletion race is swallowed and the mapping is still unmapped and the
descriptor still closed.  The code has no try/except around os.remove: with
one client and the backing file already gone, close propagates the error and
leaves the mapping mapped, the descriptor open and the closed flag unset. -/
theorem C7_counterexample :
    smd_close ⟨1, false, true, true, false⟩
      = (.error .fileNotFoundError, ⟨0, false, true, true, false⟩) := by
  decide

/-- C7 (amended): when close decrements the counter to ≤ 0 and the backing
file is already gone, the deletion error propagates out of close (it is not
swallowed); the mapping is not unmapped, the descriptor is not closed and the
handle is not marked closed — only the counter write has happened. -/
theorem C7_close_delete_race (s : CloseSt) (h0 : s.closed = false)
    (h1 : s.clients - 1 ≤ 0) (h2 : s.fileExists = false) :
    smd_close s = (.error .fileNotFoundError, { s with clients := s.clients - 1 }) := by
  simp [smd_close, h0, h1, h2]

theorem C7_witness :
    (smd_close ⟨0, false, true, true, false⟩).1 = .error .fileNotFoundError ∧
    (smd_close ⟨0, false, true, true, false⟩).2.mapped = true ∧
    (smd_close ⟨0, false, true, true, false⟩).2.fdOpen = true ∧
    (smd_close ⟨0, false, true, true, false⟩).2.closed = false :=
  have h := C7_close_delete_race ⟨0, false, true, true, false⟩ (by decide) (by decide)
    (by decide)
  ⟨by rw [h], by rw [h], by rw [h], by rw [h]⟩

/-- C1 (counterexample): the claim says set(k, v) then get(k) always returns
v.  An orphan expired expiration entry (an entry for a key absent from the
data mapping, reachable via set_expiration on a key that was never set, or
whose value was deleted by another path) survives the eviction pass inside
set — eviction only inspects keys of the data mapping — and then makes the
immediately following get evict the freshly written key: get returns the
default instead of v. -/
theorem C1_counterexample :
    cache_set none "a" (JVal.jint 7) 10 ⟨[], [("a", 5)], 1⟩
      = (.ok (), ⟨[("a", JVal.jint 7)], [("a", 5)], 1⟩) ∧
    (cache_get "a" JVal.jnull 10 ⟨[("a", JVal.jint 7)], [("a", 5)], 1⟩).1 = JVal.jnull ∧
    JVal.jnull ≠ JVal.jint 7 := by
  decide


/-- C3: set with a TTL of 0 stores the expiration timestamp now + 0 = now
(per the spec wording for the per-call TTL, over the code path for the data
write and eviction), and any later load at now + delta with delta > 0 finds
the entry nonzero (now > 0 for any real clock) and ≤ now + delta, so the key
is evicted: get returns the default and keys() drops the key. -/
theorem C3_ttl_zero_expires (k : String) (v default : JVal) (now delta : Int)
    (s : CacheSt) (h1 : 0 < now) (h3 : 0 < delta) :
    (cache_get k default (now + delta) (cache_set_ttl k v 0 now s)).1 = default ∧
    ¬ k ∈ (cache_keys (now + delta) (cache_set_ttl k v 0 now s)).1 := by
  have hv : dlookup (cache_set_ttl k v 0 now s).data k = some v :=
    dlookup_dinsert_self _ _ _
  have he : dlookup (cache_set_ttl k v 0 now s).expir k = some (now + 0) :=
    dlookup_dinsert_self _ _ _
  have htest : expTestB (now + delta) (cache_set_ttl k v 0 now s).expir k = true := by
    unfold expTestB
    rw [he]
    simp only [Bool.and_eq_true, decide_eq_true_eq]
    omega
  obtain ⟨g1, _⟩ := cache_get_dict_lookup (now + delta) (cache_set_ttl k v 0 now s) k
  have hnone : dlookup (cache_get_dict (now + delta) (cache_set_ttl k v 0 now s)).1 k
      = none := by
    rw [g1]
    simp [hv, htest]
  constructor
  · show (dlookup (cache_get_dict (now + delta) (cache_set_ttl k v 0 now s)).1 k).getD default
      = default
    rw [hnone]
    rfl
  · show ¬ k ∈ dkeys (cache_get_dict (now + delta) (cache_set_ttl k v 0 now s)).1
    rw [mem_dkeys_iff, hnone]
    simp

theorem C3_witness :
    (cache_get "a" JVal.jnull (100 + 1) (cache_set_ttl "a" (JVal.jint 1) 0 100 ⟨[], [], 1⟩)).1
      = JVal.jnull ∧
    ¬ "a" ∈ (cache_keys (100 + 1) (cache_set_ttl "a" (JVal.jint 1) 0 100 ⟨[], [], 1⟩)).1 :=
  C3_ttl_zero_expires "a" (JVal.jint 1) JVal.jnull 100 1 ⟨[], [], 1⟩ (by decide) (by decide)

/-- C8 (counterexample): the claim says a set without TTL (and no default)
leaves the expiration mapping unchanged and the stale entry for k stays
active.  If the stale entry is already expired, the load inside set evicts it
and rewrites the expiration region: after the set, the entry is gone and the
fresh value has no expiration at all. -/
theorem C8_counterexample :
    cache_set none "a" (JVal.jint 2) 10 ⟨[("a", JVal.jint 1)], [("a", 5)], 1⟩
      = (.ok (), ⟨[("a", JVal.jint 2)], [], 1⟩) ∧
    (⟨[("a", JVal.jint 2)], [], 1⟩ : CacheSt).expir ≠ [("a", 5)] := by
  decide

/-- C8 (amended): when no stored expiration entry is already due (every entry
x has x = 0 or now < x), a set without a per-call TTL and with no cache-level
default leaves the expiration mapping byte-for-byte unchanged — in particular
a pre-existing (unexpired) entry for the overwritten key stays active.  When
some entry is already expired for a present key, the load inside set evicts
it, so the claimed frame property fails (see the counterexample). -/
theorem C8_set_keeps_expiration (k : String) (v : JVal) (now : Int) (s : CacheSt)
    (h : s.expir.all (fun q => decide (q.2 = 0) || decide (now < q.2)) = true) :
    (cache_set none k v now s).1 = .ok () ∧
    (cache_set none k v now s).2.expir = s.expir := by
  have hstable := cache_get_dict_stable now s (expTestB_false_of_all now s.expir h)
  rw [cache_set_none_eq]
  refine ⟨rfl, ?_⟩
  show (cache_get_dict now s).2.expir = s.expir
  rw [hstable]

theorem C8_witness :
    (cache_set none "a" (JVal.jint 2) 10 ⟨[("a", JVal.jint 1)], [("a", 100)], 1⟩).1
      = .ok () ∧
    (cache_set none "a" (JVal.jint 2) 10 ⟨[("a", JVal.jint 1)], [("a", 100)], 1⟩).2.expir
      = [("a", 100)] :=
  C8_set_keeps_expiration "a" (JVal.jint 2) 10 ⟨[("a", JVal.jint 1)], [("a", 100)], 1⟩
    (by decide)

/-- C9 (counterexample): the claim quantifies over every key k.  For a key
absent from the data mapping, pop(k) computes the value of the literal "key"
but then `remove(k)` raises KeyError, so nothing is returned and nothing is
removed. -/
theorem C9_counterexample :
    cache_pop "b" 10 ⟨[("key", JVal.jint 42)], [], 1⟩
      = (.error .keyError, ⟨[("key", JVal.jint 42)], [], 1⟩) := by
  decide

/-- C9 (amended): for a key k present in the data mapping, with an expiration
entry (so the inner delete completes instead of raising TypeError) and no
entry already due, pop(k) returns the value stored under the literal string
"key" — the bug: `value = self.get("key")` instead of `self.get(key)` — while
removing k itself from the data mapping.  For k without an expiration entry
the removal still happens but a TypeError propagates instead of the return;
for an absent k a KeyError propagates (see the counterexample). -/
theorem C9_pop_reads_literal_key (k : String) (now : Int) (s : CacheSt)
    (hall : s.expir.all (fun q => decide (q.2 = 0) || decide (now < q.2)) = true)
    (hk : (dlookup s.data k).isSome = true)
    (he : (dlookup s.expir k).isSome = true) :
    (cache_pop k now s).1 = .ok ((dlookup s.data "key").getD JVal.jnull) ∧
    dlookup (cache_pop k now s).2.data k = none := by
  have hstable := cache_get_dict_stable now s (expTestB_false_of_all now s.expir hall)
  have hget : cache_get "key" JVal.jnull now s = ((dlookup s.data "key").getD JVal.jnull, s) := by
    unfold cache_get
    rw [hstable]
  have hdel : cache_delete k now s
      = (.ok (), { s with data := derase s.data k, expir := derase s.expir k }) := by
    simp [cache_delete, hstable, hk, set_expiration, truthyOpt, he]
  have hpop : cache_pop k now s
      = (.ok ((dlookup s.data "key").getD JVal.jnull),
         { s with data := derase s.data k, expir := derase s.expir k }) := by
    simp [cache_pop, hget, hdel]
  rw [hpop]
  exact ⟨rfl, dlookup_derase_self _ _⟩

theorem C9_witness :
    (cache_pop "a" 10 ⟨[("key", JVal.jint 42), ("a", JVal.jint 7)], [("a", 100)], 1⟩).1
      = .ok (JVal.jint 42) ∧
    dlookup (cache_pop "a" 10
      ⟨[("key", JVal.jint 42), ("a", JVal.jint 7)], [("a", 100)], 1⟩).2.data "a" = none :=
  have h := C9_pop_reads_literal_key "a" 10
    ⟨[("key", JVal.jint 42), ("a", JVal.jint 7)], [("a", 100)], 1⟩
    (by decide) (by decide) (by decide)
  ⟨by rw [h.1]; decide, h.2⟩

theorem MMap.write_ok (m : MMap) (s : List Char) (h : m.pos + s.length ≤ m.buf.length) :
    m.write s = .ok ⟨listOverwrite m.buf m.pos s, m.pos + s.length⟩ := by
  unfold MMap.write
  rw [if_pos h]

theorem listOverwrite_length (buf s : List Char) (pos : Nat)
    (h : pos + s.length ≤ buf.length) :
    (listOverwrite buf pos s).length = buf.length := by
  unfold listOverwrite
  rw [List.length_append, List.length_append, List.length_take, List.length_drop,
    Nat.min_eq_left (Nat.le_trans (Nat.le_add_right _ _) h)]
  omega

/-- C4 (counterexample): with region capacity 10 and a freshly initialized
Cache mapping (25 bytes: data region, expiration region, 5-digit counter), a
dict serializing to 19 bytes is written without any error — no
CapacityExceededError exists anywhere in the code — and the bytes of the
adjacent expiration region are overwritten: `_flush_data` blanks only the
data region and `mm.write` then spills 9 bytes past the region boundary. -/
theorem C4_counterexample :
    (dumps [("k", JVal.jstr "0123456789")]).data.length = 19 ∧
    (exceptRegion (writeBytes 10 [("k", JVal.jstr "0123456789")] ⟨cacheInitBuf 10, 0⟩)
      10 10).isSome = true ∧
    exceptRegion (writeBytes 10 [("k", JVal.jstr "0123456789")] ⟨cacheInitBuf 10, 0⟩)
      10 10 ≠ some (flushPayload 10) := by
  decide

/-- C4 (amended): the write path performs no capacity check against the
region: after blanking the data region, any serialized payload that fits in
the remainder of the whole mapping is written successfully — even when it
exceeds the region capacity, in which case it overwrites bytes of the
neighboring region (see the counterexample); only a payload running past the
end of the entire mapping raises (mmap ValueError), and by then the region
has already been blanked, so the previous content is lost either way. -/
theorem C4_no_capacity_check (size : Nat) (d : Dict) (m : MMap)
    (h1 : 2 ≤ size) (h2 : size ≤ m.buf.length)
    (h3 : (dumps d).data.length ≤ m.buf.length) :
    ∃ m2 : MMap, writeBytes size d m = .ok m2 ∧ m2.buf.length = m.buf.length := by
  have hflen : (flushPayload size).length = size := by
    simp only [flushPayload, List.length_cons, List.length_replicate]
    omega
  have ha : (flushPayload size).length ≤ m.buf.length := by
    rw [hflen]
    exact h2
  have hov1 : (listOverwrite m.buf 0 (flushPayload size)).length = m.buf.length :=
    listOverwrite_length _ _ _ (by rw [hflen]; omega)
  have hb : (dumps d).data.length ≤ (listOverwrite m.buf 0 (flushPayload size)).length := by
    rw [hov1]
    exact h3
  have hov2 : (listOverwrite (listOverwrite m.buf 0 (flushPayload size)) 0
      (dumps d).data).length = m.buf.length := by
    rw [listOverwrite_length _ _ _ (by omega)]
    exact hov1
  have hb2 : (dumps d).length ≤ (listOverwrite m.buf 0 (flushPayload size)).length := hb
  refine ⟨⟨listOverwrite (listOverwrite m.buf 0 (flushPayload size)) 0 (dumps d).data,
    (dumps d).data.length⟩, ?_, hov2⟩
  simp [writeBytes, MMap.write, MMap.seekTo, ha, hb, hb2]

theorem C4_witness :
    ∃ m2 : MMap,
      writeBytes 10 [("k", JVal.jstr "0123456789")] ⟨cacheInitBuf 10, 0⟩ = .ok m2 ∧
      m2.buf.length = (⟨cacheInitBuf 10, 0⟩ : MMap).buf.length :=
  C4_no_capacity_check 10 [("k", JVal.jstr "0123456789")] ⟨cacheInitBuf 10, 0⟩
    (by decide) (by decide) (by decide)

theorem listOverwrite_drop (buf s : List Char) (n : Nat) (h : s.length ≤ n) :
    (listOverwrite buf 0 s).drop n = buf.drop n := by
  unfold listOverwrite
  simp only [List.take_zero, List.nil_append, Nat.zero_add]
  rw [show n = s.length + (n - s.length) from by omega]
  rw [List.drop_append, List.drop_drop]

/-- C1 (amended): for every key k and value v whose serialized form fits
within the region capacity (the serialization of the mapping that set writes
is at most `size` bytes), set(k, v) followed by get(k) at the same clock
reading returns exactly v, provided additionally that the cache-level default
TTL, if any, is nonnegative and k carries no orphan expired expiration entry
(an entry x with x ≠ 0 and x ≤ now while k is absent from the data mapping) —
such an orphan entry survives the eviction pass inside set and makes the
following get evict the fresh value and return the default.  Under the same
capacity proviso, the byte-level data-region write performed by set raises no
error and leaves every byte from the region boundary onward (the expiration
region and the counter) untouched, so the decoded reading of the regions used
for the round trip is sound; without the proviso the write spills into the
expiration region (see the C4 analysis).  The state is the shared backing
content, so the same conclusion covers a get issued through a second handle
attached to the same name. -/
theorem C1_round_trip (size : Nat) (de : Option Int) (k : String) (v default : JVal)
    (now : Int) (s : CacheSt) (m : MMap)
    (hsize : 2 ≤ size)
    (hbuf : m.buf.length = 2 * size + 5)
    (hcap : (dumps (dinsert (cache_get_dict now s).1 k v)).length ≤ size)
    (hde : ∀ t : Int, de = some t → 0 ≤ t)
    (hk : ∀ x : Int, dlookup s.expir k = some x →
      x = 0 ∨ now < x ∨ (dlookup s.data k).isSome = true) :
    (cache_set de k v now s).1 = .ok () ∧
    (cache_get k default now (cache_set de k v now s).2).1 = v ∧
    (∃ m2 : MMap,
      writeBytes size (dinsert (cache_get_dict now s).1 k v) m = .ok m2 ∧
      m2.buf.drop size = m.buf.drop size) := by
  have hbyte : ∃ m2 : MMap,
      writeBytes size (dinsert (cache_get_dict now s).1 k v) m = .ok m2 ∧
      m2.buf.drop size = m.buf.drop size := by
    have hflen : (flushPayload size).length = size := by
      simp only [flushPayload, List.length_cons, List.length_replicate]
      omega
    have ha : (flushPayload size).length ≤ m.buf.length := by
      rw [hflen, hbuf]
      omega
    have hov1 : (listOverwrite m.buf 0 (flushPayload size)).length = m.buf.length :=
      listOverwrite_length _ _ _ (by rw [hflen, hbuf]; omega)
    have hb : (dumps (dinsert (cache_get_dict now s).1 k v)).data.length
        ≤ (listOverwrite m.buf 0 (flushPayload size)).length := by
      have hc : (dumps (dinsert (cache_get_dict now s).1 k v)).data.length ≤ size := hcap
      rw [hov1, hbuf]
      omega
    have hb2 : (dumps (dinsert (cache_get_dict now s).1 k v)).length
        ≤ (listOverwrite m.buf 0 (flushPayload size)).length := hb
    refine ⟨⟨listOverwrite (listOverwrite m.buf 0 (flushPayload size)) 0
        (dumps (dinsert (cache_get_dict now s).1 k v)).data,
      (dumps (dinsert (cache_get_dict now s).1 k v)).data.length⟩, ?_, ?_⟩
    · simp [writeBytes, MMap.write, MMap.seekTo, ha, hb, hb2]
    · show (listOverwrite (listOverwrite m.buf 0 (flushPayload size)) 0
          (dumps (dinsert (cache_get_dict now s).1 k v)).data).drop size
        = m.buf.drop size
      have hcap2 : (dumps (dinsert (cache_get_dict now s).1 k v)).data.length ≤ size := hcap
      rw [listOverwrite_drop (listOverwrite m.buf 0 (flushPayload size))
        (dumps (dinsert (cache_get_dict now s).1 k v)).data size hcap2]
      exact listOverwrite_drop m.buf (flushPayload size) size hflen.le
  cases de with
  | none =>
    rw [cache_set_none_eq]
    refine ⟨rfl, ?_, hbyte⟩
    apply cache_get_value
    · exact dlookup_dinsert_self _ _ _
    · exact expTest_after_evict now s k hk
  | some t =>
    have ht0 := hde t rfl
    by_cases hz : t = 0
    · subst hz
      have hzero : cache_set (some 0) k v now s = (.ok (), setitem_base k v now s) := by
        simp [cache_set, truthyOpt]
      rw [hzero]
      refine ⟨rfl, ?_, hbyte⟩
      apply cache_get_value
      · exact dlookup_dinsert_self _ _ _
      · exact expTest_after_evict now s k hk
    · rw [cache_set_some_eq t hz]
      refine ⟨rfl, ?_, hbyte⟩
      apply cache_get_value
      · exact dlookup_dinsert_self _ _ _
      · show expTestB now (dinsert (setitem_base k v now s).expir k (now + t)) k = false
        unfold expTestB
        rw [dlookup_dinsert_self]
        have hnle : ¬ (now + t ≤ now) := by omega
        simp [hnle]

theorem C1_witness :
    (cache_set (some 10) "a" (JVal.jstr "x") 100 ⟨[], [], 1⟩).1 = .ok () ∧
    (cache_get "a" JVal.jnull 100 (cache_set (some 10) "a" (JVal.jstr "x") 100 ⟨[], [], 1⟩).2).1
      = JVal.jstr "x" ∧
    (∃ m2 : MMap,
      writeBytes 30 (dinsert (cache_get_dict 100 ⟨[], [], 1⟩).1 "a" (JVal.jstr "x"))
        ⟨cacheInitBuf 30, 0⟩ = .ok m2 ∧
      m2.buf.drop 30 = (⟨cacheInitBuf 30, 0⟩ : MMap).buf.drop 30) :=
  C1_round_trip 30 (some 10) "a" (JVal.jstr "x") JVal.jnull 100 ⟨[], [], 1⟩
    ⟨cacheInitBuf 30, 0⟩ (by decide) (by decide) (by decide)
    (by intro t htt; cases htt; decide)
    (by intro x hx; simp [dlookup] at hx)
